import Mathlib

/-!
Verification development for the Playmaker repository.

The core under study is `playmaker/judge.py` (the verdict-resolution engine:
response parsing, field normalization and the heuristic evaluator) and
`playmaker/orchestrator.py` (the staged workflow pipeline).

Modelling conventions:
* Decoded JSON payloads (the result of `json.loads`) are modelled by the
  inductive type `JVal`; JSON numbers are modelled as integers (no claim
  involves fractional payload numbers).
* `json.loads` itself is an external library; it is modelled as a parameter
  `decode : String -> Option JVal` where `none` stands for a
  `json.JSONDecodeError`.
* Python code that can raise an exception is modelled with `Option`:
  a result of `none` means the corresponding Python code raises.
* Subprocess execution and the filesystem are external; a stage's
  `subprocess.CompletedProcess` is modelled by `ProcResult`, the existence of
  the tests directory by a `Bool`, and the per-file verdict dictionary
  produced by `evaluate_directory` by an association list.
-/

/-- A decoded JSON value, as produced by `json.loads`. Numbers are modelled
as integers; object fields keep their textual order (later duplicates win on
lookup, as in a Python dict built by the decoder). -/
inductive JVal where
  | null : JVal
  | bool : Bool → JVal
  | num : Int → JVal
  | str : String → JVal
  | arr : List JVal → JVal
  | obj : List (String × JVal) → JVal

/-- Python `dict.get`: the value at a key, last duplicate winning. -/
def jget (fields : List (String × JVal)) (key : String) : Option JVal :=
  fields.foldl (fun acc kv => if kv.1 = key then some kv.2 else acc) none

/-- Python truthiness of a decoded value (`bool(v)`). -/
def jtruthy : JVal → Bool
  | JVal.null => false
  | JVal.bool b => b
  | JVal.num n => !(n = 0)
  | JVal.str s => !(s = "")
  | JVal.arr xs => !xs.isEmpty
  | JVal.obj fs => !fs.isEmpty

/-- The ASCII single-quote character used by Python `repr` of strings. -/
def quoteChar : Char := Char.ofNat 39

/-- ASCII opening brace. -/
def braceOpen : Char := Char.ofNat 123

/-- ASCII closing brace. -/
def braceClose : Char := Char.ofNat 125

mutual

/-- Python `repr` of a decoded JSON value (quoting of embedded quotes inside
string payloads is not modelled; no claim reaches it). -/
def pyRepr : JVal → String
  | JVal.null => "None"
  | JVal.bool true => "True"
  | JVal.bool false => "False"
  | JVal.num n => toString n
  | JVal.str s => String.mk [quoteChar] ++ s ++ String.mk [quoteChar]
  | JVal.arr xs => "[" ++ pyReprList xs ++ "]"
  | JVal.obj fs => String.mk [braceOpen] ++ pyReprFields fs ++ String.mk [braceClose]

/-- Comma-joined `repr`s of list elements. -/
def pyReprList : List JVal → String
  | [] => ""
  | [x] => pyRepr x
  | x :: y :: t => pyRepr x ++ ", " ++ pyReprList (y :: t)

/-- Comma-joined `repr`s of dict entries. -/
def pyReprFields : List (String × JVal) → String
  | [] => ""
  | [kv] => String.mk [quoteChar] ++ kv.1 ++ String.mk [quoteChar] ++ ": " ++ pyRepr kv.2
  | kv :: kv2 :: t =>
      String.mk [quoteChar] ++ kv.1 ++ String.mk [quoteChar] ++ ": " ++ pyRepr kv.2 ++ ", " ++
        pyReprFields (kv2 :: t)

end

/-- Python `str` of a decoded JSON value. -/
def pyStr : JVal → String
  | JVal.str s => s
  | v => pyRepr v

/-- Whether `pat` is a prefix of `hay`. -/
def isPrefL : List Char → List Char → Bool
  | [], _ => true
  | _ :: _, [] => false
  | p :: ps, c :: cs => p = c && isPrefL ps cs

/-- Whether `pat` occurs as a contiguous sublist of `hay`
(Python `pat in hay` for strings). -/
def containsL (pat : List Char) : List Char → Bool
  | [] => pat.isEmpty
  | c :: cs => isPrefL pat (c :: cs) || containsL pat cs

/-- Python `pat in hay` on strings. -/
def containsS (hay pat : String) : Bool := containsL pat.toList hay.toList

/-- Fuelled helper for the non-overlapping occurrence count. -/
def countOccAux (pat : List Char) : Nat → List Char → Nat
  | _, [] => 0
  | 0, _ :: _ => 0
  | fuel + 1, c :: cs =>
      if isPrefL pat (c :: cs) then 1 + countOccAux pat fuel ((c :: cs).drop pat.length)
      else countOccAux pat fuel cs

/-- Python `hay.count(pat)`: non-overlapping, leftmost-first occurrence count. -/
def countOcc (pat hay : List Char) : Nat := countOccAux pat hay.length hay

/-- Remainder of `hay` after the first occurrence of `pat`. -/
def dropAfterFirst (pat : List Char) : List Char → Option (List Char)
  | [] => none
  | c :: cs =>
      if isPrefL pat (c :: cs) then some ((c :: cs).drop pat.length)
      else dropAfterFirst pat cs

/-- Part of `hay` before the first occurrence of `pat` (`none` if absent). -/
def takeBeforeFirst (pat : List Char) : List Char → Option (List Char)
  | [] => none
  | c :: cs =>
      if isPrefL pat (c :: cs) then some []
      else (takeBeforeFirst pat cs).map (c :: ·)

/-- ASCII whitespace recognized by the regex `\s` class. -/
def pyIsSpace (c : Char) : Bool :=
  c = ' ' || c = '\t' || c = '\n' || c = '\r' || c = Char.ofNat 11 || c = Char.ofNat 12

/-- Strip leading and trailing whitespace. -/
def trimL (cs : List Char) : List Char :=
  ((cs.dropWhile pyIsSpace).reverse.dropWhile pyIsSpace).reverse

/-- Python slicing `s[:n]`. -/
def strTake (s : String) (n : Nat) : String := String.mk (s.toList.take n)

/-- Python `s.lower()` (ASCII case folding suffices for the fixed keywords). -/
def lowerS (s : String) : String := String.mk (s.toList.map Char.toLower)

/-! ## The Verdict data model (`judge.py`, `JudgeVerdict`) -/

/-- `JudgeVerdict` from `judge.py`. The dataclass does not enforce field
types at runtime, so every field holds a dynamic value. -/
structure JudgeVerdict where
  passed : JVal
  score : JVal
  issues : JVal
  suggestions : JVal
  summary : JVal

/-! ## Field normalization (`JudgeAgent._data_to_verdict`) -/

/-- The list comprehension `[i.get("description", str(i)) for i in entries]`:
`none` when some entry is not a dict (its `.get` raises `AttributeError`). -/
def reduceEntries : List JVal → Option (List JVal)
  | [] => some []
  | JVal.obj fs :: rest =>
      (reduceEntries rest).map
        (fun t => ((jget fs "description").getD (JVal.str (pyStr (JVal.obj fs)))) :: t)
  | _ :: _ => none

/-- The normalization block
`if v and isinstance(v[0], dict): v = [i.get("description", str(i)) for i in v]`
applied to the raw `issues`/`suggestions` field value. `none` models the
`TypeError`/`KeyError` raised by `v[0]` on a truthy non-indexable value, or the
`AttributeError` raised inside the comprehension. -/
def normField (v : JVal) : Option JVal :=
  match v with
  | JVal.arr (JVal.obj fs :: rest) => (reduceEntries (JVal.obj fs :: rest)).map JVal.arr
  | JVal.arr _ => some v
  | JVal.str _ => some v
  | JVal.num n => if n = 0 then some v else none
  | JVal.bool b => if b then none else some v
  | JVal.obj fs => if fs.isEmpty then some v else none
  | JVal.null => some v

/-- Whether the first element of a decoded list is a structured object
(the guard `isinstance(v[0], dict)` for a non-empty list). -/
def headIsObj : List JVal → Bool
  | JVal.obj _ :: _ => true
  | _ => false

/-- `data.get("suggestions", data.get("recommendations", []))`. -/
def sugSource (fields : List (String × JVal)) : JVal :=
  match jget fields "suggestions" with
  | some v => v
  | none => (jget fields "recommendations").getD (JVal.arr [])

/-- The lowered text of the `verdict` field: `data.get("verdict", "").lower()`.
`none` models the `AttributeError` when the field holds a non-string. -/
def verdictTextLower (fields : List (String × JVal)) : Option String :=
  match (jget fields "verdict").getD (JVal.str "") with
  | JVal.str s => some (lowerS s)
  | _ => none

/-- The fixed ordered keyword-to-score table of `_data_to_verdict`. -/
def inferScore (t : String) : Int :=
  if containsS t "excellent" || containsS t "good" then 85
  else if containsS t "fair" || containsS t "acceptable" then 70
  else if containsS t "poor" then 40
  else 50

/-- Score resolution: the explicit `score` field if truthy, otherwise the
keyword inference from the `verdict` field. -/
def scoreResolve (fields : List (String × JVal)) : Option JVal :=
  let score0 := (jget fields "score").getD (JVal.num 0)
  if jtruthy score0 then some score0
  else (verdictTextLower fields).map (fun t => JVal.num (inferScore t))

/-- Python `score >= 70` on a dynamic score value: defined for numbers and
booleans (booleans compare as 0/1, both below 70), a `TypeError` otherwise. -/
def pyGE70 : JVal → Option JVal
  | JVal.num n => some (JVal.bool (decide (70 ≤ n)))
  | JVal.bool _ => some (JVal.bool false)
  | _ => none

/-- `data.get("passed", score >= 70)`. Python evaluates the default argument
eagerly: the comparison `score >= 70` runs (and can raise a `TypeError`)
before `dict.get` consults the `passed` key, even when that key is present. -/
def passedResolve (fields : List (String × JVal)) (score : JVal) : Option JVal :=
  (pyGE70 score).map (fun dflt => (jget fields "passed").getD dflt)

/-- `data.get("summary", data.get("verdict", raw_response[:100]))`. -/
def summaryResolve (fields : List (String × JVal)) (raw : String) : JVal :=
  (jget fields "summary").getD ((jget fields "verdict").getD (JVal.str (strTake raw 100)))

/-- `JudgeAgent._data_to_verdict(data, raw_response)`. A result of `none`
means the Python code raises (e.g. `.get` on a non-dict payload, or a truthy
non-list `issues` field). -/
def dataToVerdictFields (fields : List (String × JVal)) (raw : String) : Option JudgeVerdict :=
  (normField ((jget fields "issues").getD (JVal.arr []))).bind (fun issues =>
    (normField (sugSource fields)).bind (fun suggestions =>
      (scoreResolve fields).bind (fun score =>
        (passedResolve fields score).map (fun passed =>
          ⟨passed, score, issues, suggestions, summaryResolve fields raw⟩))))

/-- Dispatch of `_data_to_verdict` on the decoded payload: the first line
`data.get("issues", [])` raises `AttributeError` unless `data` is a dict. -/
def dataToVerdict (data : JVal) (raw : String) : Option JudgeVerdict :=
  match data with
  | JVal.obj fields => dataToVerdictFields fields raw
  | _ => none

/-! ## Response parsing (`JudgeAgent._parse_verdict`) -/

/-- The fence opener matched by the regex. -/
def fenceJson : List Char := "```json".toList

/-- The fence closer matched by the regex. -/
def fenceClose : List Char := "```".toList

/-- The regex extraction of a labeled fenced block:
the text between the first occurrence of the json fence opener and the next
fence closer after it, with surrounding whitespace stripped. -/
def findFencedL (cs : List Char) : Option (List Char) :=
  (dropAfterFirst fenceJson cs).bind
    (fun rest => (takeBeforeFirst fenceClose rest).map trimL)

/-- String form of `findFencedL`. -/
def findFencedS (s : String) : Option String := (findFencedL s.toList).map String.mk

/-- The balanced-brace scan of `_parse_verdict`, starting at a character list
whose head is the first opening brace; `d` is the current depth. Returns the
minimal substring whose brace depth returns to zero, `none` if braces never
balance. -/
def braceScan : Nat → List Char → Option (List Char)
  | _, [] => none
  | d, c :: rest =>
      if c = braceOpen then (braceScan (d + 1) rest).map (c :: ·)
      else if c = braceClose then
        if d = 1 then some [c]
        else (braceScan (d - 1) rest).map (c :: ·)
      else (braceScan d rest).map (c :: ·)

/-- The strategy-2 extraction: from the first opening brace in the response,
the minimal balanced-brace substring. -/
def balancedExtract (response : String) : Option String :=
  (braceScan 0 (response.toList.dropWhile (fun c => !(c = braceOpen)))).map String.mk

/-- The degraded low-confidence verdict produced when parsing fails. -/
def degradedVerdict (response : String) : JudgeVerdict :=
  ⟨JVal.bool false, JVal.num 0,
    JVal.arr [JVal.str "Failed to parse judge response"], JVal.arr [],
    JVal.str (if response = "" then "No response" else strTake response 200)⟩

/-- Strategies 2 and 3 of `_parse_verdict`: the balanced-brace scan and, on
any decode failure, the degraded verdict. A `json.JSONDecodeError` from the
strategy-2 decode is caught and degrades; an error raised inside
`_data_to_verdict` propagates (`none`). -/
def parseBalanced (decode : String → Option JVal) (response : String) : Option JudgeVerdict :=
  match (balancedExtract response).bind decode with
  | some data => dataToVerdict data response
  | none => some (degradedVerdict response)

/-- `JudgeAgent._parse_verdict(response)`, parameterized by the JSON decoder.
Strategy 1: if a labeled fenced block is present and its content decodes, the
decoded object is normalized; a missing fence and a caught `JSONDecodeError`
both continue with strategy 2 (hence the grouping through `Option.bind`).
`none` models an exception escaping to the caller (only `JSONDecodeError`
is caught by the method itself). -/
def parseVerdict (decode : String → Option JVal) (response : String) : Option JudgeVerdict :=
  match (findFencedS response).bind decode with
  | some data => dataToVerdict data response
  | none => parseBalanced decode response

/-! ## The heuristic evaluator (`JudgeAgent._fallback_evaluate`) -/

/-- The fragile-selector check: either of the two regexes
`page\.locator\(["\']#` and `page\.locator\(["\']\.`, i.e. the literal
`page.locator(` followed by a quote character and `#` or `.`. -/
def fragileSelector (cs : List Char) : Bool :=
  containsL ("page.locator(\"#".toList) cs ||
  containsL ("page.locator(".toList ++ [quoteChar, '#']) cs ||
  containsL ("page.locator(\".".toList) cs ||
  containsL ("page.locator(".toList ++ [quoteChar, '.']) cs

/-- The hard-coded wait check: `"page.waitForTimeout" in test_content`. -/
def hardcodedWait (cs : List Char) : Bool := containsL ("page.waitForTimeout".toList) cs

/-- The missing-assertion check: `"expect(" not in test_content`. -/
def noAssertions (cs : List Char) : Bool := !(containsL ("expect(".toList) cs)

/-- The ungrouped-tests check:
`"test.describe" not in test_content and test_content.count("test(") > 3`. -/
def ungroupedTests (cs : List Char) : Bool :=
  !(containsL ("test.describe".toList) cs) && decide (3 < countOcc ("test(".toList) cs)

/-- `JudgeAgent._fallback_evaluate(test_content)`: the deterministic
heuristic evaluation. -/
def fallbackEvaluate (testContent : String) : JudgeVerdict :=
  let cs := testContent.toList
  let s1 : Int := if fragileSelector cs then 100 - 20 else 100
  let s2 : Int := if hardcodedWait cs then s1 - 15 else s1
  let s3 : Int := if noAssertions cs then s2 - 30 else s2
  let s4 : Int := if ungroupedTests cs then s3 - 5 else s3
  let issues :=
    (if fragileSelector cs then
      [JVal.str "Uses fragile CSS selectors instead of role/text locators"] else []) ++
    (if hardcodedWait cs then [JVal.str "Uses hardcoded timeouts"] else []) ++
    (if noAssertions cs then [JVal.str "No assertions found"] else [])
  let suggestions :=
    (if fragileSelector cs then
      [JVal.str "Use getByRole(), getByText(), or getByTestId()"] else []) ++
    (if hardcodedWait cs then [JVal.str "Use waitFor conditions instead"] else []) ++
    (if ungroupedTests cs then
      [JVal.str "Consider grouping related tests with test.describe"] else [])
  ⟨JVal.bool (decide (70 ≤ s4)), JVal.num (max 0 s4), JVal.arr issues, JVal.arr suggestions,
    JVal.str ("Heuristic evaluation: " ++ toString s4 ++ "/100")⟩

/-- The total deduction triggered by the four independent rules. -/
def heurDeduction (cs : List Char) : Int :=
  (if fragileSelector cs then 20 else 0) + (if hardcodedWait cs then 15 else 0) +
  (if noAssertions cs then 30 else 0) + (if ungroupedTests cs then 5 else 0)

/-- Whether a dynamic score value is an integer in `[0, 100]`. -/
def scoreInRange : JVal → Bool
  | JVal.num n => decide (0 ≤ n) && decide (n ≤ 100)
  | _ => false

/-- Whether a verdict's `passed` flag is the boolean `score >= 70` of its own
integer score. -/
def scorePassedCoherent (v : JudgeVerdict) : Bool :=
  match v.score, v.passed with
  | JVal.num n, JVal.bool b => b == decide (70 ≤ n)
  | _, _ => false

/-! ## The workflow orchestrator (`orchestrator.py`) -/

/-- The observable outcome of `subprocess.run` on an external agent
(`PlaymakerOrchestrator.run_playwright_agent`). -/
structure ProcResult where
  returncode : Int
  stdout : String
  stderr : String

/-- `WorkflowResult` from `orchestrator.py`. -/
structure WorkflowResult where
  stage : String
  success : Bool
  details : String
  judgeVerdict : Option JudgeVerdict

/-- Python `a or b` on strings: `a` if non-empty, else `b`. -/
def pyOrStr (a b : String) : String := if a = "" then b else a

/-- The planner stage record appended by `workflow_plan_generate_judge`. -/
def plannerStage (p : ProcResult) : WorkflowResult :=
  ⟨"planner", decide (p.returncode = 0), pyOrStr p.stdout p.stderr, none⟩

/-- The generator stage record appended by `workflow_plan_generate_judge`. -/
def generatorStage (p : ProcResult) : WorkflowResult :=
  ⟨"generator", decide (p.returncode = 0), pyOrStr p.stdout p.stderr, none⟩

/-- The healer stage record appended by `workflow_full`. -/
def healerStage (p : ProcResult) : WorkflowResult :=
  ⟨"healer", decide (p.returncode = 0), pyOrStr p.stdout p.stderr, none⟩

/-- A dynamic verdict score as used by `sum(v.score for v in ...)`: integers
pass through, booleans count as 0/1, anything else raises a `TypeError`. -/
def scoreAsInt : JVal → Option Int
  | JVal.num n => some n
  | JVal.bool b => some (if b then 1 else 0)
  | _ => none

/-- `sum(v.score for v in verdicts.values())` over the per-file verdict
mapping, `none` when a score is not numeric. -/
def sumScores (vs : List (String × JudgeVerdict)) : Option Int :=
  vs.foldl (fun acc kv => acc.bind (fun a => (scoreAsInt kv.2.score).map (a + ·))) (some 0)

/-- `all(v.passed for v in verdicts.values())` (Python truthiness). -/
def allPassedB (vs : List (String × JudgeVerdict)) : Bool :=
  vs.all (fun kv => jtruthy kv.2.passed)

/-- `sum(...) / len(verdicts) if verdicts else 0`: the mean score. Python
divides floats; the quotient is modelled exactly as the rational
`mkRat sum len`. -/
def meanScoreQ (vs : List (String × JudgeVerdict)) : Option ℚ :=
  if vs.isEmpty then some 0
  else (sumScores vs).map (fun s => mkRat s vs.length)

/-- Rounding used by the format specifier `:.0f`: nearest integer, ties to
even (the sign of a negative zero is not modelled; no claim reaches it). -/
def roundHalfEven (q : ℚ) : Int :=
  let d : Int := (q.den : Int)
  let f : Int := q.num / d
  let r2 : Int := 2 * (q.num % d)
  if r2 < d then f else if d < r2 then f + 1 else if f % 2 = 0 then f else f + 1

/-- `f"Evaluated {n} tests. Average score: {avg:.0f}/100"`. -/
def judgeDetails (n : Nat) (avg : ℚ) : String :=
  "Evaluated " ++ toString n ++ " tests. Average score: " ++ toString (roundHalfEven avg) ++ "/100"

/-- The judge stage record built from the per-file verdict mapping
(`orchestrator.py`): success iff all verdicts are truthy-passed and the mean
score meets the threshold; the representative verdict is the first mapping
entry. `none` models the `TypeError` from summing non-numeric scores. -/
def judgeStage (vs : List (String × JudgeVerdict)) (threshold : Int) : Option WorkflowResult :=
  (meanScoreQ vs).map (fun avg =>
    ⟨"judge", allPassedB vs && decide (((threshold : Int) : ℚ) ≤ avg),
      judgeDetails vs.length avg, vs.head?.map (fun kv => kv.2)⟩)

/-- The failed judge stage recorded when the tests directory is missing. -/
def noTestsDirStage : WorkflowResult := ⟨"judge", false, "No tests directory found", none⟩

/-- `PlaymakerOrchestrator.workflow_plan_generate_judge`, with the external
world supplied as arguments: the two subprocess outcomes, whether
`project_dir/tests` exists, and the verdict mapping that
`evaluate_directory` returns for it. -/
def workflowPlanGenerateJudge (pr gr : ProcResult) (testsDirExists : Bool)
    (vs : List (String × JudgeVerdict)) (threshold : Int) : Option (List WorkflowResult) :=
  let r1 := plannerStage pr
  if !(pr.returncode = 0) then some [r1]
  else
    let r2 := generatorStage gr
    if !(gr.returncode = 0) then some [r1, r2]
    else if testsDirExists then (judgeStage vs threshold).map (fun jr => [r1, r2, jr])
    else some [r1, r2, noTestsDirStage]

/-- `PlaymakerOrchestrator.workflow_full`: run the three-stage workflow, then
the healer stage only if the judge stage result exists and succeeded. -/
def workflowFull (pr gr hr : ProcResult) (testsDirExists : Bool)
    (vs : List (String × JudgeVerdict)) (threshold : Int) : Option (List WorkflowResult) :=
  (workflowPlanGenerateJudge pr gr testsDirExists vs threshold).map (fun results =>
    match results.find? (fun r => r.stage == "judge") with
    | none => results
    | some jr => if jr.success then results ++ [healerStage hr] else results)

/-! ## Helper lemmas -/

theorem dataToVerdict_inv {fields : List (String × JVal)} {raw : String} {v : JudgeVerdict}
    (h : dataToVerdict (JVal.obj fields) raw = some v) :
    ∃ i sg sc p,
      normField ((jget fields "issues").getD (JVal.arr [])) = some i ∧
      normField (sugSource fields) = some sg ∧
      scoreResolve fields = some sc ∧
      passedResolve fields sc = some p ∧
      v = ⟨p, sc, i, sg, summaryResolve fields raw⟩ := by
  replace h : dataToVerdictFields fields raw = some v := h
  unfold dataToVerdictFields at h
  simp only [Option.bind_eq_some, Option.map_eq_some'] at h
  obtain ⟨i, hi, sg, hs, sc, hsc, p, hp, hv⟩ := h
  exact ⟨i, sg, sc, p, hi, hs, hsc, hp, hv.symm⟩

theorem scoreResolve_of_untruthy {fields : List (String × JVal)} {sc : JVal}
    (h : scoreResolve fields = some sc)
    (h0 : jtruthy ((jget fields "score").getD (JVal.num 0)) = false) :
    ∃ t, verdictTextLower fields = some t ∧ sc = JVal.num (inferScore t) := by
  simp only [scoreResolve] at h
  rw [h0] at h
  simp only [Bool.false_eq_true, if_false] at h
  cases ht : verdictTextLower fields with
  | none => rw [ht] at h; exact Option.noConfusion h
  | some t =>
    rw [ht] at h
    exact ⟨t, rfl, (Option.some.inj h).symm⟩

theorem inferScore_range (t : String) : 0 ≤ inferScore t ∧ inferScore t ≤ 100 := by
  unfold inferScore
  split_ifs <;> omega

theorem judgeStage_stage {vs : List (String × JudgeVerdict)} {th : Int} {jr : WorkflowResult}
    (h : judgeStage vs th = some jr) : jr.stage = "judge" := by
  unfold judgeStage at h
  cases hm : meanScoreQ vs with
  | none => rw [hm] at h; exact Option.noConfusion h
  | some m =>
    rw [hm] at h
    rw [← Option.some.inj h]

theorem judgeStage_of_mean (th : Int) {vs : List (String × JudgeVerdict)} {m : ℚ}
    (hm : meanScoreQ vs = some m) :
    judgeStage vs th =
      some ⟨"judge", allPassedB vs && decide (((th : Int) : ℚ) ≤ m),
        judgeDetails vs.length m, vs.head?.map (fun kv => kv.2)⟩ := by
  unfold judgeStage
  rw [hm]
  rfl

theorem wpgj_ok {pr gr : ProcResult} (hp : pr.returncode = 0) (hg : gr.returncode = 0)
    (vs : List (String × JudgeVerdict)) (th : Int) {jr : WorkflowResult}
    (hj : judgeStage vs th = some jr) :
    workflowPlanGenerateJudge pr gr true vs th =
      some [plannerStage pr, generatorStage gr, jr] := by
  unfold workflowPlanGenerateJudge
  rw [hp, hg, hj]
  rfl

theorem findJudge (pr gr : ProcResult) {jr : WorkflowResult} (hj : jr.stage = "judge") :
    ([plannerStage pr, generatorStage gr, jr]).find? (fun r => r.stage == "judge") =
      some jr := by
  have hb : (jr.stage == "judge") = true := by rw [hj]; rfl
  simp only [List.find?]
  rw [show ((plannerStage pr).stage == "judge") = false from rfl,
    show ((generatorStage gr).stage == "judge") = false from rfl, hb]

theorem heurDeduction_bounds (cs : List Char) : 0 ≤ heurDeduction cs ∧ heurDeduction cs ≤ 70 := by
  unfold heurDeduction
  split_ifs <;> omega

theorem fallbackEvaluate_proj (text : String) :
    (fallbackEvaluate text).score = JVal.num (max 0 (100 - heurDeduction text.toList)) ∧
    (fallbackEvaluate text).passed =
      JVal.bool (decide (70 ≤ 100 - heurDeduction text.toList)) := by
  refine ⟨?_, ?_⟩ <;>
    (cases hf : fragileSelector text.data <;>
      cases hw : hardcodedWait text.data <;>
        cases hn : noAssertions text.data <;>
          cases hu : ungroupedTests text.data <;>
            simp [fallbackEvaluate, heurDeduction, String.toList, hf, hw, hn, hu])

theorem fallback_scoreInRange (text : String) :
    scoreInRange (fallbackEvaluate text).score = true := by
  obtain ⟨h1, _⟩ := fallbackEvaluate_proj text
  obtain ⟨hd0, hd1⟩ := heurDeduction_bounds text.toList
  rw [h1]
  show (decide (0 ≤ max 0 (100 - heurDeduction text.toList)) &&
    decide (max 0 (100 - heurDeduction text.toList) ≤ 100)) = true
  simp only [Bool.and_eq_true, decide_eq_true_eq]
  omega

theorem fallback_coherent (text : String) :
    scorePassedCoherent (fallbackEvaluate text) = true := by
  obtain ⟨h1, h2⟩ := fallbackEvaluate_proj text
  obtain ⟨hd0, hd1⟩ := heurDeduction_bounds text.toList
  unfold scorePassedCoherent
  rw [h1, h2]
  have hmax : max 0 (100 - heurDeduction text.toList) = 100 - heurDeduction text.toList := by
    omega
  simp only [hmax, beq_self_eq_true]

/-- Claim C1 (counterexample): the claim "the score field lies in [0,100] for
every produced Verdict" fails: a decoded object carrying the explicit numeric
score 150 is converted by `_data_to_verdict` into a Verdict whose score is
150, outside [0,100] (no clamping is performed). -/
theorem C1_counterexample :
    dataToVerdict (JVal.obj [("score", JVal.num 150)]) "r" =
      some ⟨JVal.bool true, JVal.num 150, JVal.arr [], JVal.arr [], JVal.str "r"⟩ ∧
    scoreInRange (JVal.num 150) = false :=
  ⟨rfl, rfl⟩

/-- Claim C1 (amended): scores produced by the heuristic evaluator, by the
degraded parse, and by qualitative-verdict inference lie in [0,100], and when
the decoded object supplies no `passed` field the `passed` flag is computed
as `score >= 70`; an explicit truthy `score` field, however, is stored
unclamped and may lie outside [0,100]. -/
theorem C1_main (text response raw : String) (fields : List (String × JVal))
    (v : JudgeVerdict) (h1 : dataToVerdict (JVal.obj fields) raw = some v) :
    (scoreInRange (fallbackEvaluate text).score = true ∧
      scorePassedCoherent (fallbackEvaluate text) = true) ∧
    (scoreInRange (degradedVerdict response).score = true ∧
      scorePassedCoherent (degradedVerdict response) = true) ∧
    (jget fields "passed" = none → some v.passed = pyGE70 v.score) ∧
    ((jget fields "score" = none ∨ jget fields "score" = some (JVal.num 0)) →
      scoreInRange v.score = true) := by
  obtain ⟨i, sg, sc, p, hi, hs, hsc, hp, hv⟩ := dataToVerdict_inv h1
  refine ⟨⟨fallback_scoreInRange text, fallback_coherent text⟩, ⟨rfl, rfl⟩, ?_, ?_⟩
  · intro hnp
    unfold passedResolve at hp
    rw [hnp] at hp
    cases hg70 : pyGE70 sc with
    | none => rw [hg70] at hp; exact Option.noConfusion hp
    | some d =>
      rw [hg70] at hp
      have hdp : d = p := Option.some.inj hp
      rw [hv]
      show some p = pyGE70 sc
      rw [hg70, hdp]
  · intro hsc0
    have h0 : jtruthy ((jget fields "score").getD (JVal.num 0)) = false := by
      rcases hsc0 with h | h <;> rw [h] <;> rfl
    obtain ⟨t, ht, hts⟩ := scoreResolve_of_untruthy hsc h0
    rw [hv]
    show scoreInRange sc = true
    rw [hts]
    obtain ⟨ha, hb⟩ := inferScore_range t
    show (decide (0 ≤ inferScore t) && decide (inferScore t ≤ 100)) = true
    simp only [Bool.and_eq_true, decide_eq_true_eq]
    exact ⟨ha, hb⟩

/-- Claim C1 (witness). -/
theorem C1_witness :
    scoreInRange (⟨JVal.bool false, JVal.num 50, JVal.arr [], JVal.arr [],
      JVal.str ""⟩ : JudgeVerdict).score = true :=
  (C1_main "x" "y" "" [] _ rfl).2.2.2 (Or.inl rfl)

/-- Claim C2 (counterexample): the claim "_parse_verdict never raises to its
caller" fails: on the response consisting of the object with an `issues`
field holding the number 5 (the decoder below agrees with `json.loads` on
the one string it is asked to decode), the successfully decoded object makes
the normalization block evaluate `5[0]`, raising a `TypeError` that escapes
`_parse_verdict` (modelled as `none`). -/
theorem C2_counterexample :
    parseVerdict
      (fun s => if s = "\x7b\"issues\": 5\x7d" then some (JVal.obj [("issues", JVal.num 5)])
        else none)
      "\x7b\"issues\": 5\x7d" = none := rfl

/-- Claim C2 (amended): `_parse_verdict` returns a Verdict on every input on
which each successfully decoded candidate normalizes without error in
`_data_to_verdict`; all pure parsing failures (no fenced block, no brace,
unbalanced braces, decode failure) degrade rather than raise, so the only
exception source is `_data_to_verdict` on an ill-shaped decoded value, such
as a non-list truthy `issues` field, or a non-numeric truthy `score` fed to
the eagerly evaluated `score >= 70` default of the `passed` lookup (that
exception is caught only higher up, in `evaluate_test`). -/
theorem C2_main (decode : String → Option JVal) (response : String)
    (h : ∀ s d, decode s = some d → (dataToVerdict d response).isSome = true) :
    (parseVerdict decode response).isSome = true := by
  unfold parseVerdict parseBalanced
  cases hf : (findFencedS response).bind decode with
  | some data =>
    obtain ⟨c, _, hdc⟩ := Option.bind_eq_some.mp hf
    exact h c data hdc
  | none =>
    cases hb : (balancedExtract response).bind decode with
    | some data =>
      obtain ⟨s2, _, hds⟩ := Option.bind_eq_some.mp hb
      exact h s2 data hds
    | none => rfl

/-- Claim C2 (witness). -/
theorem C2_witness : (parseVerdict (fun _ => none) "x").isSome = true :=
  C2_main (fun _ => none) "x" (fun _ _ hd => Option.noConfusion hd)

/-- Claim C3 (counterexample): the claim that stage identifiers are drawn
from the set plan/generate/judge/heal fails: a failing plan run appends a
result whose stage identifier is the string "planner", which is none of the
four claimed identifiers. -/
theorem C3_counterexample :
    workflowPlanGenerateJudge ⟨1, "boom", ""⟩ ⟨0, "", ""⟩ false [] 70 =
      some [⟨"planner", false, "boom", none⟩] ∧
    ¬ ("planner" = "plan" ∨ "planner" = "generate" ∨ "planner" = "judge" ∨
        "planner" = "heal") :=
  ⟨rfl, by decide⟩

/-- Claim C3 (amended): every WorkflowResult appended to the orchestrator's
result sequence (in either workflow mode) has a stage identifier drawn from
the fixed set planner/generator/judge/healer. -/
theorem C3_main (pr gr hrp : ProcResult) (tde : Bool) (vs : List (String × JudgeVerdict))
    (th : Int) :
    (∀ res, workflowPlanGenerateJudge pr gr tde vs th = some res →
      ∀ r ∈ res, r.stage = "planner" ∨ r.stage = "generator" ∨ r.stage = "judge" ∨
        r.stage = "healer") ∧
    (∀ res, workflowFull pr gr hrp tde vs th = some res →
      ∀ r ∈ res, r.stage = "planner" ∨ r.stage = "generator" ∨ r.stage = "judge" ∨
        r.stage = "healer") := by
  have h1 : ∀ res, workflowPlanGenerateJudge pr gr tde vs th = some res →
      ∀ r ∈ res, r.stage = "planner" ∨ r.stage = "generator" ∨ r.stage = "judge" ∨
        r.stage = "healer" := by
    intro res hres r hm
    unfold workflowPlanGenerateJudge at hres
    split at hres
    · cases Option.some.inj hres
      simp only [List.mem_singleton] at hm
      subst hm
      exact Or.inl rfl
    · split at hres
      · cases Option.some.inj hres
        simp only [List.mem_cons, List.not_mem_nil, or_false] at hm
        rcases hm with hm | hm <;> subst hm
        · exact Or.inl rfl
        · exact Or.inr (Or.inl rfl)
      · split at hres
        · cases hj : judgeStage vs th with
          | none => rw [hj] at hres; exact Option.noConfusion hres
          | some jr =>
            rw [hj] at hres
            cases Option.some.inj hres
            simp only [List.mem_cons, List.not_mem_nil, or_false] at hm
            rcases hm with hm | hm | hm <;> subst hm
            · exact Or.inl rfl
            · exact Or.inr (Or.inl rfl)
            · exact Or.inr (Or.inr (Or.inl (judgeStage_stage hj)))
        · cases Option.some.inj hres
          simp only [List.mem_cons, List.not_mem_nil, or_false] at hm
          rcases hm with hm | hm | hm <;> subst hm
          · exact Or.inl rfl
          · exact Or.inr (Or.inl rfl)
          · exact Or.inr (Or.inr (Or.inl rfl))
  refine ⟨h1, ?_⟩
  intro res hres r hm
  unfold workflowFull at hres
  cases hw : workflowPlanGenerateJudge pr gr tde vs th with
  | none => rw [hw] at hres; exact Option.noConfusion hres
  | some res3 =>
    rw [hw] at hres
    replace hres := Option.some.inj hres
    subst hres
    dsimp only at hm
    cases hfind : res3.find? (fun r => r.stage == "judge") with
    | none =>
      rw [hfind] at hm
      exact h1 res3 hw r hm
    | some jr =>
      rw [hfind] at hm
      dsimp only at hm
      by_cases hsucc : jr.success = true
      · rw [if_pos hsucc] at hm
        rcases List.mem_append.mp hm with hm2 | hm2
        · exact h1 res3 hw r hm2
        · simp only [List.mem_singleton] at hm2
          subst hm2
          exact Or.inr (Or.inr (Or.inr rfl))
      · rw [if_neg hsucc] at hm
        exact h1 res3 hw r hm

/-- Claim C3 (witness). -/
theorem C3_witness :
    (⟨"planner", false, "", none⟩ : WorkflowResult).stage = "planner" ∨
    (⟨"planner", false, "", none⟩ : WorkflowResult).stage = "generator" ∨
    (⟨"planner", false, "", none⟩ : WorkflowResult).stage = "judge" ∨
    (⟨"planner", false, "", none⟩ : WorkflowResult).stage = "healer" :=
  (C3_main ⟨1, "", ""⟩ ⟨0, "", ""⟩ ⟨0, "", ""⟩ false [] 70).1 _ rfl _
    (List.Mem.head _)

/-- Claim C4 (confirmed): the heuristic evaluator always returns a score
equal to 100 minus the sum of the fixed per-rule deductions (20 for a
fragile quoted id/class locator, 15 for a hard-coded wait call, 30 for no
assertion call, 5 for more than three test declarations without a grouping
construct), each deduction counted at most once and the result floored at 0;
the score lies in [0,100] and the `passed` flag equals `score >= 70`. -/
theorem C4_main (text : String) :
    (fallbackEvaluate text).score = JVal.num (max 0 (100 - heurDeduction text.toList)) ∧
    (fallbackEvaluate text).passed =
      JVal.bool (decide (70 ≤ 100 - heurDeduction text.toList)) ∧
    scoreInRange (fallbackEvaluate text).score = true ∧
    scorePassedCoherent (fallbackEvaluate text) = true :=
  ⟨(fallbackEvaluate_proj text).1, (fallbackEvaluate_proj text).2,
    fallback_scoreInRange text, fallback_coherent text⟩

/-- Claim C5 (confirmed): in full-workflow mode (once plan and generate
succeed and the tests directory exists), the heal stage is attempted iff the
judge stage succeeded, judge success equals "every per-file verdict passed
and the mean score meets or exceeds the threshold"; a mean exactly equal to
the threshold (with all passed) runs heal, and a mean strictly below the
threshold ends the sequence at the judge stage. -/
theorem C5_main (pr gr hrp : ProcResult) (vs : List (String × JudgeVerdict)) (th : Int)
    (m : ℚ) (hp : pr.returncode = 0) (hg : gr.returncode = 0)
    (hm : meanScoreQ vs = some m) :
    (∀ jr, judgeStage vs th = some jr →
      jr.success = (allPassedB vs && decide (((th : Int) : ℚ) ≤ m)) ∧
      workflowFull pr gr hrp true vs th =
        some ([plannerStage pr, generatorStage gr, jr] ++
          (if jr.success then [healerStage hrp] else []))) ∧
    (allPassedB vs = true → m = ((th : Int) : ℚ) → ∀ jr, judgeStage vs th = some jr →
      workflowFull pr gr hrp true vs th =
        some [plannerStage pr, generatorStage gr, jr, healerStage hrp]) ∧
    (m < ((th : Int) : ℚ) → ∀ jr, judgeStage vs th = some jr →
      workflowFull pr gr hrp true vs th = some [plannerStage pr, generatorStage gr, jr] ∧
      jr.stage = "judge") := by
  have hj0 := judgeStage_of_mean th hm
  have key : ∀ jr, judgeStage vs th = some jr →
      jr.success = (allPassedB vs && decide (((th : Int) : ℚ) ≤ m)) ∧
      workflowFull pr gr hrp true vs th =
        some ([plannerStage pr, generatorStage gr, jr] ++
          (if jr.success then [healerStage hrp] else [])) := by
    intro jr hj
    have hjr := Option.some.inj (hj0.symm.trans hj)
    have hwp := wpgj_ok hp hg vs th hj
    refine ⟨?_, ?_⟩
    · rw [← hjr]
    · unfold workflowFull
      rw [hwp, Option.map_some']
      rw [findJudge pr gr (judgeStage_stage hj)]
      dsimp only
      by_cases hs : jr.success = true
      · rw [if_pos hs, if_pos hs]
      · rw [if_neg hs, if_neg hs, List.append_nil]
  refine ⟨key, ?_, ?_⟩
  · intro hap hmth jr hj
    obtain ⟨hsucc, heq⟩ := key jr hj
    have hs : jr.success = true := by
      rw [hsucc, hap, hmth]
      simp
    rw [heq, if_pos hs]
    rfl
  · intro hlt jr hj
    obtain ⟨hsucc, heq⟩ := key jr hj
    have hdec : decide (((th : Int) : ℚ) ≤ m) = false := decide_eq_false (not_le.mpr hlt)
    have hs : jr.success = false := by rw [hsucc, hdec, Bool.and_false]
    refine ⟨?_, judgeStage_stage hj⟩
    rw [heq, hs]
    rfl

/-- Claim C5 (witness). -/
theorem C5_witness :
    workflowFull ⟨0, "p", ""⟩ ⟨0, "g", ""⟩ ⟨0, "h", ""⟩ true
        [("f", ⟨JVal.bool true, JVal.num 70, JVal.arr [], JVal.arr [], JVal.str "s"⟩)] 70 =
      some [plannerStage ⟨0, "p", ""⟩, generatorStage ⟨0, "g", ""⟩,
        ⟨"judge", true, "Evaluated 1 tests. Average score: 70/100",
          some ⟨JVal.bool true, JVal.num 70, JVal.arr [], JVal.arr [], JVal.str "s"⟩⟩,
        healerStage ⟨0, "h", ""⟩] :=
  (C5_main ⟨0, "p", ""⟩ ⟨0, "g", ""⟩ ⟨0, "h", ""⟩
      [("f", ⟨JVal.bool true, JVal.num 70, JVal.arr [], JVal.arr [], JVal.str "s"⟩)] 70 70
      rfl rfl (by decide)).2.1 rfl (by decide) _ (by rfl)

/-- Claim C6 (confirmed): a non-zero plan exit terminates the workflow with a
result sequence of length exactly 1 holding the failed plan stage (generate,
judge and heal are never reached), and a non-zero generate exit after a
successful plan terminates it with a sequence of length exactly 2. -/
theorem C6_main (pr gr hrp : ProcResult) (tde : Bool) (vs : List (String × JudgeVerdict))
    (th : Int) :
    (¬ pr.returncode = 0 →
      workflowPlanGenerateJudge pr gr tde vs th = some [plannerStage pr] ∧
      (plannerStage pr).success = false ∧
      workflowFull pr gr hrp tde vs th = some [plannerStage pr]) ∧
    (pr.returncode = 0 → ¬ gr.returncode = 0 →
      workflowPlanGenerateJudge pr gr tde vs th =
        some [plannerStage pr, generatorStage gr] ∧
      (plannerStage pr).success = true ∧ (generatorStage gr).success = false ∧
      workflowFull pr gr hrp tde vs th = some [plannerStage pr, generatorStage gr]) := by
  constructor
  · intro hp
    have hwp : workflowPlanGenerateJudge pr gr tde vs th = some [plannerStage pr] := by
      simp [workflowPlanGenerateJudge, hp]
    refine ⟨hwp, by simp [plannerStage, hp], ?_⟩
    unfold workflowFull
    rw [hwp]
    rfl
  · intro hp hg
    have hwp : workflowPlanGenerateJudge pr gr tde vs th =
        some [plannerStage pr, generatorStage gr] := by
      simp [workflowPlanGenerateJudge, hp, hg]
    refine ⟨hwp, by simp [plannerStage, hp], by simp [generatorStage, hg], ?_⟩
    unfold workflowFull
    rw [hwp]
    rfl

/-- Claim C6 (witness). -/
theorem C6_witness :
    workflowPlanGenerateJudge ⟨1, "", ""⟩ ⟨0, "", ""⟩ false [] 70 =
      some [plannerStage ⟨1, "", ""⟩] :=
  ((C6_main ⟨1, "", ""⟩ ⟨0, "", ""⟩ ⟨0, "", ""⟩ false [] 70).1 (by decide)).1

/-- Claim C7 (confirmed): whenever no extraction strategy succeeds (every
decodable candidate fails to decode; in particular when there is no labeled
fenced block and no opening brace at all), `_parse_verdict` returns the
degraded Verdict: `passed=false`, `score=0`, exactly one issue stating that
parsing failed, zero suggestions, and a summary equal to the first 200
characters of the raw text, or the fixed "No response" marker when the raw
text is empty. -/
theorem C7_main (decode : String → Option JVal) (response : String)
    (hf : ∀ c, findFencedS response = some c → decode c = none)
    (hb : ∀ sub, balancedExtract response = some sub → decode sub = none) :
    parseVerdict decode response = some (degradedVerdict response) ∧
    (degradedVerdict response).passed = JVal.bool false ∧
    (degradedVerdict response).score = JVal.num 0 ∧
    (degradedVerdict response).issues =
      JVal.arr [JVal.str "Failed to parse judge response"] ∧
    (degradedVerdict response).suggestions = JVal.arr [] ∧
    (degradedVerdict response).summary =
      JVal.str (if response = "" then "No response" else strTake response 200) := by
  refine ⟨?_, rfl, rfl, rfl, rfl, rfl⟩
  unfold parseVerdict parseBalanced
  have h1 : (findFencedS response).bind decode = none := by
    cases hc : findFencedS response with
    | none => rfl
    | some c => exact hf c hc
  have h2 : (balancedExtract response).bind decode = none := by
    cases hc : balancedExtract response with
    | none => rfl
    | some sub => exact hb sub hc
  rw [h1, h2]

/-- Claim C7 (witness). -/
theorem C7_witness :
    parseVerdict (fun _ => none) "hello" = some (degradedVerdict "hello") :=
  (C7_main (fun _ => none) "hello" (fun _ _ => rfl) (fun _ _ => rfl)).1

theorem normField_plain {xs : List JVal} (h : headIsObj xs = false) :
    normField (JVal.arr xs) = some (JVal.arr xs) := by
  cases xs with
  | nil => rfl
  | cons x t => cases x <;> first | rfl | (simp [headIsObj] at h)

theorem sugSource_of_rec {fields : List (String × JVal)} {rec0 : JVal}
    (h1 : jget fields "suggestions" = none) (h2 : jget fields "recommendations" = some rec0) :
    sugSource fields = rec0 := by
  unfold sugSource
  rw [h1, h2]
  rfl

theorem sugSource_of_sug {fields : List (String × JVal)} {sv : JVal}
    (h : jget fields "suggestions" = some sv) : sugSource fields = sv := by
  unfold sugSource
  rw [h]

/-- Claim C8 (confirmed): when the decoded object's numeric score field is
absent or zero (and the conversion succeeds), the score is inferred from the
lowered text of the qualitative verdict field by the fixed ordered keyword
mapping (excellent/good to 85, fair/acceptable to 70, poor to 40, otherwise
50), so it lies in [0,100]; in particular an object with no score field and
verdict "Good coverage overall" yields score 85 and passed true. -/
theorem C8_main (fields : List (String × JVal)) (raw t : String) (v : JudgeVerdict)
    (h1 : dataToVerdict (JVal.obj fields) raw = some v)
    (h2 : jget fields "score" = none ∨ jget fields "score" = some (JVal.num 0))
    (h3 : verdictTextLower fields = some t) :
    v.score = JVal.num (inferScore t) ∧ scoreInRange v.score = true ∧
    dataToVerdict (JVal.obj [("verdict", JVal.str "Good coverage overall")]) raw =
      some ⟨JVal.bool true, JVal.num 85, JVal.arr [], JVal.arr [],
        JVal.str "Good coverage overall"⟩ := by
  obtain ⟨i, sg, sc, p, hi, hs, hsc, hp, hv⟩ := dataToVerdict_inv h1
  have h0 : jtruthy ((jget fields "score").getD (JVal.num 0)) = false := by
    rcases h2 with h | h <;> rw [h] <;> rfl
  obtain ⟨t2, ht2, hts⟩ := scoreResolve_of_untruthy hsc h0
  have htt : t2 = t := Option.some.inj (ht2.symm.trans h3)
  subst htt
  refine ⟨?_, ?_, rfl⟩
  · rw [hv]
    exact hts
  · rw [hv]
    show scoreInRange sc = true
    rw [hts]
    show (decide (0 ≤ inferScore t2) && decide (inferScore t2 ≤ 100)) = true
    simp only [Bool.and_eq_true, decide_eq_true_eq]
    exact inferScore_range t2

/-- Claim C8 (witness). -/
theorem C8_witness :
    (⟨JVal.bool true, JVal.num 85, JVal.arr [], JVal.arr [],
      JVal.str "Good coverage overall"⟩ : JudgeVerdict).score =
      JVal.num (inferScore "good coverage overall") :=
  (C8_main [("verdict", JVal.str "Good coverage overall")] "r" "good coverage overall" _
    rfl (Or.inl rfl) rfl).1

/-- Claim C9 (counterexample): the claim that a "recommendations" list maps
into the suggestions field with structured entries reduced to their
description text fails on a mixed list: because the reduction is guarded on
the FIRST element being structured, the list ["a", an object with
description "b"] is stored unchanged, structured entry included, rather than
as ["a", "b"]. -/
theorem C9_counterexample :
    (dataToVerdict (JVal.obj [("recommendations",
        JVal.arr [JVal.str "a", JVal.obj [("description", JVal.str "b")]])]) "r").map
      JudgeVerdict.suggestions =
      some (JVal.arr [JVal.str "a", JVal.obj [("description", JVal.str "b")]]) ∧
    JVal.arr [JVal.str "a", JVal.obj [("description", JVal.str "b")]] ≠
      JVal.arr [JVal.str "a", JVal.str "b"] := by
  refine ⟨rfl, ?_⟩
  intro h
  injection h with h1
  injection h1 with h2 h3
  injection h3 with h4 h5
  exact JVal.noConfusion h4

/-- Claim C9 (amended): a decoded object carrying "recommendations" and no
"suggestions" stores the carried list in the Verdict's suggestions field
after the normalization block: the list passes through unchanged in order
when its first element is not a structured object, and is reduced
entrywise to description text when its first element is structured (a later
non-structured entry then raises); when both keys are present, the
"suggestions" key wins. -/
theorem C9_main (fields : List (String × JVal)) (raw : String) (rec0 : JVal)
    (v : JudgeVerdict) (h1 : jget fields "suggestions" = none)
    (h2 : jget fields "recommendations" = some rec0)
    (h3 : dataToVerdict (JVal.obj fields) raw = some v) :
    some v.suggestions = normField rec0 ∧
    (∀ xs, rec0 = JVal.arr xs → headIsObj xs = false → v.suggestions = rec0) ∧
    (∀ xs out, rec0 = JVal.arr xs → headIsObj xs = true → reduceEntries xs = some out →
      v.suggestions = JVal.arr out) ∧
    (∀ fields2 v2 sv, jget fields2 "suggestions" = some sv →
      dataToVerdict (JVal.obj fields2) raw = some v2 → some v2.suggestions = normField sv) := by
  obtain ⟨i, sg, sc, p, hi, hs, hsc, hp, hv⟩ := dataToVerdict_inv h3
  rw [sugSource_of_rec h1 h2] at hs
  have hmain : some v.suggestions = normField rec0 := by
    rw [hv]
    exact hs.symm
  refine ⟨hmain, ?_, ?_, ?_⟩
  · intro xs hxs hhead
    rw [hxs] at hmain
    rw [normField_plain hhead] at hmain
    rw [Option.some.inj hmain, hxs]
  · intro xs out hxs hhead hred
    cases xs with
    | nil => exact absurd hhead (by simp [headIsObj])
    | cons x t =>
      cases x <;> try (simp [headIsObj] at hhead)
      case obj fs =>
        rw [hxs] at hmain
        have : normField (JVal.arr (JVal.obj fs :: t)) = some (JVal.arr out) := by
          show (reduceEntries (JVal.obj fs :: t)).map JVal.arr = some (JVal.arr out)
          rw [hred]
          rfl
        rw [this] at hmain
        exact Option.some.inj hmain
  · intro fields2 v2 sv hsv hdv
    obtain ⟨i2, sg2, sc2, p2, hi2, hs2, hsc2, hp2, hv2⟩ := dataToVerdict_inv hdv
    rw [sugSource_of_sug hsv] at hs2
    rw [hv2]
    exact hs2.symm

/-- Claim C9 (witness). -/
theorem C9_witness :
    some (⟨JVal.bool false, JVal.num 50, JVal.arr [], JVal.arr [JVal.str "a"],
      JVal.str "r"⟩ : JudgeVerdict).suggestions = normField (JVal.arr [JVal.str "a"]) :=
  (C9_main [("recommendations", JVal.arr [JVal.str "a"])] "r" (JVal.arr [JVal.str "a"]) _
    rfl rfl rfl).1

/-- Claim C10 (confirmed): when the tests directory exists but contains no
matching test files, the judge stage computes allPassed vacuously true and a
mean score of 0, so the judge stage succeeds iff the threshold is at most 0,
and the attached representative verdict is absent. -/
theorem C10_main (pr gr : ProcResult) (th : Int) (hp : pr.returncode = 0)
    (hg : gr.returncode = 0) :
    allPassedB [] = true ∧ meanScoreQ [] = some 0 ∧
    workflowPlanGenerateJudge pr gr true [] th =
      some [plannerStage pr, generatorStage gr,
        ⟨"judge", decide (((th : Int) : ℚ) ≤ 0), judgeDetails 0 0, none⟩] ∧
    (decide (((th : Int) : ℚ) ≤ 0) = true ↔ th ≤ 0) ∧
    judgeDetails 0 0 = "Evaluated 0 tests. Average score: 0/100" := by
  have hj : judgeStage [] th =
      some ⟨"judge", decide (((th : Int) : ℚ) ≤ 0), judgeDetails 0 0, none⟩ :=
    judgeStage_of_mean th rfl
  refine ⟨rfl, rfl, wpgj_ok hp hg [] th hj, ?_, rfl⟩
  constructor
  · intro hd
    exact_mod_cast of_decide_eq_true hd
  · intro hle
    apply decide_eq_true
    exact_mod_cast hle

/-- Claim C10 (witness). -/
theorem C10_witness :
    workflowPlanGenerateJudge ⟨0, "", ""⟩ ⟨0, "", ""⟩ true [] 70 =
      some [plannerStage ⟨0, "", ""⟩, generatorStage ⟨0, "", ""⟩,
        ⟨"judge", decide (((70 : Int) : ℚ) ≤ 0), judgeDetails 0 0, none⟩] :=
  (C10_main ⟨0, "", ""⟩ ⟨0, "", ""⟩ 70 rfl rfl).2.2.1

